import Mathlib

/-!
Shallow embedding of the `libwmctl` core of the wmctl repository.

The definitions below translate, function by function, the placement and
protocol code of `src/libwmctl/src/lib.rs` (move_win, shape_win, shape4x3,
WinOpt::any, WinOpt::place) and `src/libwmctl/src/winmgr.rs`
(window_geometry, window_borders, window_gnome_borders, window_name,
move_resize_window, maximize_window, unmaximize_window, send_event).

Modelling choices:
* Rust `u32` values are `Nat`; arithmetic that Rust checks (add/sub, which
  panic on overflow/underflow) is modelled by `addU32`/`subU32` returning
  `Except WmErr Nat` with an `arithPanic` error on out-of-range results.
  `i32` values are `Int` with the analogous checked `addI32`/`subI32`, and
  the wrapping cast `u32 as i32` is `u32AsI32`.
* Rust `f32` arithmetic (used by `shape4x3` and the 10%/55%/70%/75%/90%
  scalings in `shape_win`) is modelled exactly: an `F32` is a dyadic number
  `m * 2^e`, every operation rounds its exact result to a 24-bit
  significand with round-to-nearest, ties-to-even (`f32norm`, `f32divN`),
  which is IEEE-754 binary32 semantics for the magnitudes that occur here
  (no overflow to infinity, no subnormals). `as u32` saturating truncation
  is `f32toU32`.
* The side effects of the window-manager session are traces: functions
  that dispatch client messages return a `List CMsg` of the messages sent,
  in order, alongside their `Except` result. `send_event` itself is
  modelled at the transport level with a trace of `XOp` operations and a
  success oracle for the fallible transport calls.
* X11 property replies (`GetPropertyReply`) are `Reply` records holding
  the reply type atom, the format and the raw value bytes; `value32`
  mirrors x11rb's accessor (available iff format = 32).
-/

namespace Wmctl

/-- Error type of the embedded fragment: `PropertyNotFound` mirrors
`WmCtlError::PropertyNotFound`; `arithPanic` marks a Rust integer
overflow/underflow panic. -/
inductive WmErr where
  | propertyNotFound (name : String)
  | arithPanic (what : String)
deriving DecidableEq

/-- 2^32, the number of `u32` values. -/
def U32LIM : Nat := 4294967296

/-- Checked `u32` addition (Rust `+`, which panics on overflow). -/
def addU32 (a b : Nat) : Except WmErr Nat :=
  if a + b < U32LIM then .ok (a + b) else .error (.arithPanic "u32 add overflow")

/-- Checked `u32` subtraction (Rust `-`, which panics on underflow). -/
def subU32 (a b : Nat) : Except WmErr Nat :=
  if b ≤ a then .ok (a - b) else .error (.arithPanic "u32 sub underflow")

/-- Smallest `i32`. -/
def I32MIN : Int := -2147483648

/-- Largest `i32`. -/
def I32MAX : Int := 2147483647

/-- The wrapping Rust cast `u32 as i32`. -/
def u32AsI32 (n : Nat) : Int :=
  if n < 2147483648 then (n : Int) else (n : Int) - 4294967296

/-- Checked `i32` addition. -/
def addI32 (a b : Int) : Except WmErr Int :=
  if I32MIN ≤ a + b ∧ a + b ≤ I32MAX then .ok (a + b)
  else .error (.arithPanic "i32 add overflow")

/-- Checked `i32` subtraction. -/
def subI32 (a b : Int) : Except WmErr Int :=
  if I32MIN ≤ a - b ∧ a - b ≤ I32MAX then .ok (a - b)
  else .error (.arithPanic "i32 sub overflow")

/-! ### Exact model of IEEE-754 binary32 (`f32`) arithmetic -/

/-- Fuel-driven base-2 logarithm (structurally recursive so that concrete
values reduce inside the kernel). -/
def nlog2Aux : Nat → Nat → Nat
  | 0, _ => 0
  | fuel + 1, n => if 2 ≤ n then nlog2Aux fuel (n / 2) + 1 else 0

/-- Base-2 logarithm, agreeing with `Nat.log2` (see `nlog2_eq_log2`). -/
def nlog2 (n : Nat) : Nat := nlog2Aux n n

/-- Integer division of `a` by `b` rounded to the nearest integer,
ties to even. -/
def rneDiv (a b : Nat) : Nat :=
  let q := a / b
  let r := a % b
  if 2 * r < b then q
  else if b < 2 * r then q + 1
  else if q % 2 = 0 then q else q + 1

/-- A binary32 value, represented exactly as the dyadic number `m * 2^e`. -/
structure F32 where
  m : Nat
  e : Int
deriving DecidableEq

/-- Round the exact dyadic value `M * 2^E` to a 24-bit significand
(round to nearest, ties to even): binary32 rounding for the normal range. -/
def f32norm (M : Nat) (E : Int) : F32 :=
  if M < 16777216 then ⟨M, E⟩
  else
    let k := nlog2 M + 1 - 24
    ⟨rneDiv M (2 ^ k), E + k⟩

/-- The Rust cast `u32 as f32` (round to nearest, ties to even). -/
def f32ofNat (n : Nat) : F32 := f32norm n 0

/-- `f32` multiplication: round the exact product. -/
def f32mul (x y : F32) : F32 := f32norm (x.m * y.m) (x.e + y.e)

/-- `f32` division by `2^k` (exact in the normal range: only the exponent
moves). Models division by the literal `4.0`. -/
def f32divPow2 (x : F32) (k : Nat) : F32 := ⟨x.m, x.e - (k : Int)⟩

/-- `f32` division by a positive integer `d`: the exact quotient
`x.m * 2^(x.e) / d` rounded once to a 24-bit significand.  The scale
`2^(26 + log2 d)` guarantees the scaled integer quotient carries more than
24 significant bits, so `rneDiv` at the final precision performs the
single correct rounding. Models division by the literal `3.0`. -/
def f32divN (x : F32) (d : Nat) : F32 :=
  if x.m = 0 then ⟨0, 0⟩
  else
    let k := 26 + nlog2 d
    let T := x.m * 2 ^ k
    let q := T / d
    let drop := nlog2 q + 1 - 24
    ⟨rneDiv T (d * 2 ^ drop), x.e - (k : Int) + (drop : Int)⟩

/-- The `f32` nearest to the fraction `a / b`: models decimal `f32`
literals such as `0.1`, `0.55`. -/
def f32ofFrac (a b : Nat) : F32 := f32divN (f32ofNat a) b

/-- The `f32` literal `0.1`. -/
def f32lit01 : F32 := f32ofFrac 1 10

/-- The `f32` literal `0.55`. -/
def f32lit055 : F32 := f32ofFrac 11 20

/-- The `f32` literal `0.70`. -/
def f32lit070 : F32 := f32ofFrac 7 10

/-- The `f32` literal `0.75`. -/
def f32lit075 : F32 := f32ofFrac 3 4

/-- The `f32` literal `0.90`. -/
def f32lit090 : F32 := f32ofFrac 9 10

/-- The Rust cast `f32 as u32`: truncation toward zero, saturating at the
`u32` range (all values reaching it in this code are nonnegative). -/
def f32toU32 (x : F32) : Nat :=
  let v := if 0 ≤ x.e then x.m * 2 ^ x.e.toNat else x.m / 2 ^ (-x.e).toNat
  min v (U32LIM - 1)

/-! ### Atoms, client messages and the transport -/

/-- The atoms this fragment sends messages with.  Atoms are interned
names, so distinct constructors are distinct atom ids. -/
inductive XAtom where
  | NET_WM_STATE
  | NET_MOVERESIZE_WINDOW
  | NET_WM_STATE_MAXIMIZED_HORZ
  | NET_WM_STATE_MAXIMIZED_VERT
deriving DecidableEq

/-- A 32-bit datum of a client message: either a plain number or an atom
id. -/
inductive XVal where
  | num (n : Nat)
  | atom (a : XAtom)
deriving DecidableEq

/-- A `ClientMessageEvent`: format marker, target window, message type
atom, and the five 32-bit data words. -/
structure CMsg where
  format : Nat
  window : Nat
  mtype : XAtom
  data : List XVal
deriving DecidableEq

/-- EWMH `_NET_WM_STATE` action code: add the state. -/
def WINDOW_STATE_ACTION_ADD : Nat := 1

/-- EWMH `_NET_WM_STATE` action code: remove the state. -/
def WINDOW_STATE_ACTION_REMOVE : Nat := 0

/-- x11 `_NET_MOVERESIZE_WINDOW` presence flag for x (bit 8). -/
def MOVE_RESIZE_WINDOW_X : Nat := 256

/-- x11 `_NET_MOVERESIZE_WINDOW` presence flag for y (bit 9). -/
def MOVE_RESIZE_WINDOW_Y : Nat := 512

/-- x11 `_NET_MOVERESIZE_WINDOW` presence flag for width (bit 10). -/
def MOVE_RESIZE_WINDOW_WIDTH : Nat := 1024

/-- x11 `_NET_MOVERESIZE_WINDOW` presence flag for height (bit 11). -/
def MOVE_RESIZE_WINDOW_HEIGHT : Nat := 2048

/-- The client message built by `WinMgr::maximize_window`. -/
def maximize_window (id : Nat) : CMsg :=
  ⟨32, id, .NET_WM_STATE,
    [.num WINDOW_STATE_ACTION_ADD, .atom .NET_WM_STATE_MAXIMIZED_HORZ,
      .atom .NET_WM_STATE_MAXIMIZED_VERT, .num 0, .num 0]⟩

/-- The client message built by `WinMgr::unmaximize_window`. -/
def unmaximize_window (id : Nat) : CMsg :=
  ⟨32, id, .NET_WM_STATE,
    [.num WINDOW_STATE_ACTION_REMOVE, .atom .NET_WM_STATE_MAXIMIZED_HORZ,
      .atom .NET_WM_STATE_MAXIMIZED_VERT, .num 0, .num 0]⟩

/-- The flags word assembled by `WinMgr::move_resize_window`: start from
the gravity (0 when absent) and or in one presence flag per present
field. -/
def mrwFlags (gravity x y w h : Option Nat) : Nat :=
  let flags := gravity.getD 0
  let flags := if x.isSome then flags ||| MOVE_RESIZE_WINDOW_X else flags
  let flags := if y.isSome then flags ||| MOVE_RESIZE_WINDOW_Y else flags
  let flags := if w.isSome then flags ||| MOVE_RESIZE_WINDOW_WIDTH else flags
  let flags := if h.isSome then flags ||| MOVE_RESIZE_WINDOW_HEIGHT else flags
  flags

/-- The client message built by `WinMgr::move_resize_window`: word 0 is
the bit-packed flags word; words 1-4 are x, y, width, height with 0 for
absent fields. -/
def move_resize_window (id : Nat) (gravity x y w h : Option Nat) : CMsg :=
  ⟨32, id, .NET_MOVERESIZE_WINDOW,
    [.num (mrwFlags gravity x y w h),
      .num (x.getD 0), .num (y.getD 0), .num (w.getD 0), .num (h.getD 0)]⟩

/-- A transport-level operation performed by `WinMgr::send_event`. -/
inductive XOp where
  | sendChecked (root : Nat) (msg : CMsg)
  | flush
  | sleepMs (ms : Nat)
deriving DecidableEq

/-- `WinMgr::send_event`: send the message to the root window and check
it, flush, and for `_NET_MOVERESIZE_WINDOW` messages sleep 50 ms and then
send, check and flush a second time.  Each checked send and each flush is
a fallible transport call; `ok i` tells whether the i-th such call
succeeds.  The `?` operator in the source propagates a failure
immediately, so the trace stops at the first failing call.  Returns the
trace of attempted operations and whether the whole call succeeded. -/
def send_event (ok : Nat → Bool) (root : Nat) (msg : CMsg) : List XOp × Bool :=
  if !ok 0 then ([.sendChecked root msg], false)
  else if !ok 1 then ([.sendChecked root msg, .flush], false)
  else if msg.mtype = .NET_MOVERESIZE_WINDOW then
    if !ok 2 then
      ([.sendChecked root msg, .flush, .sleepMs 50, .sendChecked root msg], false)
    else if !ok 3 then
      ([.sendChecked root msg, .flush, .sleepMs 50, .sendChecked root msg, .flush], false)
    else
      ([.sendChecked root msg, .flush, .sleepMs 50, .sendChecked root msg, .flush], true)
  else ([.sendChecked root msg, .flush], true)

/-- Number of checked sends in a transport trace. -/
def countSends (l : List XOp) : Nat :=
  l.countP (fun op => match op with | .sendChecked _ _ => true | _ => false)

/-! ### Property replies and decoding -/

/-- A `GetPropertyReply`: the reply type atom id (`0` = `NONE` when the
property is absent), the format (bits per item) and the raw value
bytes. -/
structure Reply where
  type_ : Nat
  format : Nat
  value : List Nat
deriving DecidableEq

/-- Combine consecutive groups of four bytes into 32-bit words
(little-endian host order); incomplete trailing groups are dropped. -/
def chunks4 : List Nat → List Nat
  | a :: b :: c :: d :: rest => (a + 256 * b + 65536 * c + 16777216 * d) :: chunks4 rest
  | _ => []

/-- x11rb's `GetPropertyReply::value32`: the 32-bit items of the value,
available iff the reply format is 32. -/
def Reply.value32 (r : Reply) : Option (List Nat) :=
  if r.format = 32 then some (chunks4 r.value) else none

/-- `WinMgr::window_borders`, given the `_NET_FRAME_EXTENTS` reply:
requires a 32-bit-format reply carrying at least four values, else fails
with `PropertyNotFound` (named after the first missing piece). -/
def window_borders (r : Reply) : Except WmErr (Nat × Nat × Nat × Nat) :=
  match r.value32 with
  | none => .error (.propertyNotFound "_NET_FRAME_EXTENTS")
  | some vs =>
    match vs with
    | [] => .error (.propertyNotFound "_NET_FRAME_EXTENTS left")
    | [_] => .error (.propertyNotFound "_NET_FRAME_EXTENTS right")
    | [_, _] => .error (.propertyNotFound "_NET_FRAME_EXTENTS top")
    | [_, _, _] => .error (.propertyNotFound "_NET_FRAME_EXTENTS bottom")
    | l :: rr :: t :: b :: _ => .ok (l, rr, t, b)

/-- `WinMgr::window_gnome_borders`, given the `_GTK_FRAME_EXTENTS` reply:
an empty value (absent property) yields `(0, 0, 0, 0)` rather than an
error; otherwise decodes like `window_borders`. -/
def window_gnome_borders (r : Reply) : Except WmErr (Nat × Nat × Nat × Nat) :=
  if r.value = [] then .ok (0, 0, 0, 0)
  else
    match r.value32 with
    | none => .error (.propertyNotFound "_GTK_FRAME_EXTENTS")
    | some vs =>
      match vs with
      | [] => .error (.propertyNotFound "_GTK_FRAME_EXTENTS left")
      | [_] => .error (.propertyNotFound "_GTK_FRAME_EXTENTS right")
      | [_, _] => .error (.propertyNotFound "_GTK_FRAME_EXTENTS top")
      | [_, _, _] => .error (.propertyNotFound "_GTK_FRAME_EXTENTS bottom")
      | l :: rr :: t :: b :: _ => .ok (l, rr, t, b)

/-- `WinMgr::window_geometry`, after the raw geometry has been read and
translated to root-relative coordinates `(x, y)` with size `(w, h)`:
apply the window-manager frame extents if any is non-zero (expanding),
else the GNOME shadow extents (contracting). The two property replies
are passed in. -/
def window_geometry (x y : Int) (w h : Nat) (frameReply gtkReply : Reply) :
    Except WmErr (Int × Int × Nat × Nat) := do
  let (l, r, t, b) ← window_borders frameReply
  if l ≠ 0 ∨ r ≠ 0 ∨ t ≠ 0 ∨ b ≠ 0 then
    let x2 ← subI32 x (u32AsI32 l)
    let y2 ← subI32 y (u32AsI32 t)
    let w2 ← addU32 w l
    let w3 ← addU32 w2 r
    let h2 ← addU32 h t
    let h3 ← addU32 h2 b
    pure (x2, y2, w3, h3)
  else
    let (gl, gr, gt, gb) ← window_gnome_borders gtkReply
    let x2 ← addI32 x (u32AsI32 gl)
    let y2 ← addI32 y (u32AsI32 gt)
    let s1 ← addU32 gl gr
    let w2 ← subU32 w s1
    let s2 ← addU32 gt gb
    let h2 ← subU32 h s2
    pure (x2, y2, w2, h2)

/-- Is a byte a UTF-8 continuation byte (0x80-0xBF)? -/
def utf8Cont (b : Nat) : Bool := 128 ≤ b && b ≤ 191

/-- UTF-8 validity of a byte sequence (RFC 3629), modelling Rust's
`str::from_utf8` success; on success the string's bytes are the input
bytes, so names are carried as their byte lists. -/
def validUtf8 : List Nat → Bool
  | [] => true
  | b :: rest =>
    if b ≤ 127 then validUtf8 rest
    else if 194 ≤ b && b ≤ 223 then
      match rest with
      | c1 :: rest2 => utf8Cont c1 && validUtf8 rest2
      | [] => false
    else if b = 224 then
      match rest with
      | c1 :: c2 :: rest2 => (160 ≤ c1 && c1 ≤ 191) && utf8Cont c2 && validUtf8 rest2
      | _ => false
    else if 225 ≤ b && b ≤ 236 then
      match rest with
      | c1 :: c2 :: rest2 => utf8Cont c1 && utf8Cont c2 && validUtf8 rest2
      | _ => false
    else if b = 237 then
      match rest with
      | c1 :: c2 :: rest2 => (128 ≤ c1 && c1 ≤ 159) && utf8Cont c2 && validUtf8 rest2
      | _ => false
    else if 238 ≤ b && b ≤ 239 then
      match rest with
      | c1 :: c2 :: rest2 => utf8Cont c1 && utf8Cont c2 && validUtf8 rest2
      | _ => false
    else if b = 240 then
      match rest with
      | c1 :: c2 :: c3 :: rest2 =>
        (144 ≤ c1 && c1 ≤ 191) && utf8Cont c2 && utf8Cont c3 && validUtf8 rest2
      | _ => false
    else if 241 ≤ b && b ≤ 243 then
      match rest with
      | c1 :: c2 :: c3 :: rest2 =>
        utf8Cont c1 && utf8Cont c2 && utf8Cont c3 && validUtf8 rest2
      | _ => false
    else if b = 244 then
      match rest with
      | c1 :: c2 :: c3 :: rest2 =>
        (128 ≤ c1 && c1 ≤ 143) && utf8Cont c2 && utf8Cont c3 && validUtf8 rest2
      | _ => false
    else false

/-- `WinMgr::window_name`, given the `_NET_WM_VISIBLE_NAME`,
`_NET_WM_NAME` and legacy `WM_NAME` replies, in that order: the first
reply that is present (type not `NONE`), decodes as UTF-8 and is
non-empty wins; otherwise `PropertyNotFound`. -/
def window_name (visibleReply nameReply wmNameReply : Reply) : Except WmErr (List Nat) :=
  if visibleReply.type_ ≠ 0 ∧ validUtf8 visibleReply.value ∧ visibleReply.value ≠ [] then
    .ok visibleReply.value
  else if nameReply.type_ ≠ 0 ∧ validUtf8 nameReply.value ∧ nameReply.value ≠ [] then
    .ok nameReply.value
  else if wmNameReply.type_ ≠ 0 ∧ validUtf8 wmNameReply.value ∧ wmNameReply.value ≠ [] then
    .ok wmNameReply.value
  else
    .error (.propertyNotFound "_NET_WM_NAME | _WM_NAME")

/-! ### The placement engine (`lib.rs`) -/

/-- Modelled from the spec: the closed set of placement shape presets
(`WinShape` lives in `model.rs`, which is not under `src/`; the variant
list is the spec's data model, matching every variant `lib.rs`
matches). -/
inductive WinShape where
  | Max
  | UnMax
  | Grow
  | Shrink
  | Halfw
  | Halfh
  | Small
  | Medium
  | Large
  | Ratio4x3
deriving DecidableEq

/-- Modelled from the spec: the closed set of position presets
(`WinPosition` lives in `model.rs`, which is not under `src/`). -/
inductive WinPosition where
  | Center
  | Left
  | Right
  | Top
  | Bottom
  | TopLeft
  | TopRight
  | BottomLeft
  | BottomRight
  | LeftCenter
  | RightCenter
  | TopCenter
  | BottomCenter
deriving DecidableEq

/-- Modelled from the spec: the protocol constant `WinGravity::Center`
converts to (`model.rs` is not under `src/`; X11 defines gravity
Center = 5).  No claim depends on the numeric value. -/
def winGravityCenter : Nat := 5

/-- The session facts and per-window query results `WinOpt::place` and
its helpers read: work-area size, screen size, the active window id, the
target window's borders and geometry.  Queries are modelled as reads of
this environment. -/
structure Env where
  work_width : Nat
  work_height : Nat
  width : Nat
  height : Nat
  active : Nat
  borders : Nat × Nat × Nat × Nat
  geometry : Int × Int × Nat × Nat

/-- `move_win` of `lib.rs`: unmaximize, then pre-compute center x/y,
right x and bottom y from the work area, the target size and the
combined borders, and pick per-axis coordinates for the position preset.
Returns the dispatched messages and the result. -/
def move_win (env : Env) (win w h bw bh : Nat) (pos : WinPosition) :
    List CMsg × Except WmErr (Option Nat × Option Nat) :=
  ([unmaximize_window win], do
    let s1 ← addU32 w bw
    let cx ← subU32 (env.work_width / 2) (s1 / 2)
    let s2 ← addU32 h bh
    let cy ← subU32 (env.work_height / 2) (s2 / 2)
    let r1 ← subU32 env.work_width w
    let rx ← subU32 r1 bw
    let b1 ← subU32 env.work_height h
    let bY ← subU32 b1 bh
    pure (match pos with
      | .Center => (some cx, some cy)
      | .Left => (some 0, none)
      | .Right => (some rx, none)
      | .Top => (none, some 0)
      | .Bottom => (none, some bY)
      | .TopLeft => (some 0, some 0)
      | .TopRight => (some rx, some 0)
      | .BottomLeft => (some 0, some bY)
      | .BottomRight => (some rx, some bY)
      | .LeftCenter => (some 0, some cy)
      | .RightCenter => (some rx, some cy)
      | .TopCenter => (some cx, some 0)
      | .BottomCenter => (some cx, some bY)))

/-- `shape4x3` of `lib.rs`: with `tw = w + bw` and `th = h + bh`, if
`tw > th` recompute the height as `((tw - bh) as f32 * 3.0 / 4.0) as u32`,
if `th > tw` recompute the width as `((th + bh) as f32 * 4.0 / 3.0) as
u32`, else change nothing. -/
def shape4x3 (w h bw bh : Nat) : Except WmErr (Option Nat × Option Nat) := do
  let tw ← addU32 w bw
  let th ← addU32 h bh
  if th < tw then
    let d ← subU32 tw bh
    pure (some w, some (f32toU32 (f32divPow2 (f32mul (f32ofNat d) (f32ofNat 3)) 2)))
  else if tw < th then
    let s ← addU32 th bh
    pure (some (f32toU32 (f32divN (f32mul (f32ofNat s) (f32ofNat 4)) 3)), some h)
  else
    pure (none, none)

/-- `shape_win` of `lib.rs`: `Max`/`UnMax` dispatch the corresponding
state change and compute no size; every other shape first dispatches an
unmaximize, then computes its target size (10% growth/shrink, work-area
halves, 4:3 boxes) and reports center gravity. -/
def shape_win (env : Env) (win w h bw bh : Nat) (shape : WinShape) :
    List CMsg × Except WmErr (Option Nat × Option Nat × Option Nat) :=
  match shape with
  | .Max => ([maximize_window win], .ok (none, none, none))
  | .UnMax => ([unmaximize_window win], .ok (none, none, none))
  | s =>
    ([unmaximize_window win],
      let w10 := f32toU32 (f32mul (f32ofNat w) f32lit01)
      let h10 := f32toU32 (f32mul (f32ofNat h) f32lit01)
      (do
        let wh : Option Nat × Option Nat ←
          (match s with
          | .Grow => do
            let a ← addU32 w w10
            let b ← addU32 h h10
            pure (some a, some b)
          | .Halfw => do
            let a ← subU32 (env.work_width / 2) bw
            let b ← subU32 env.work_height bh
            pure (some a, some b)
          | .Halfh => do
            let a ← subU32 env.work_width bw
            let b ← subU32 (env.work_height / 2) bh
            pure (some a, some b)
          | .Small => do
            let a ← subU32 (env.work_width / 2) bw
            let b ← subU32 (env.work_height / 2) bh
            pure (some a, some b)
          | .Medium =>
            shape4x3 (f32toU32 (f32mul (f32ofNat env.width) f32lit055))
              (f32toU32 (f32mul (f32ofNat env.height) f32lit070)) bw bh
          | .Large =>
            shape4x3 (f32toU32 (f32mul (f32ofNat env.width) f32lit075))
              (f32toU32 (f32mul (f32ofNat env.height) f32lit090)) bw bh
          | .Shrink => do
            let a ← subU32 w w10
            let b ← subU32 h h10
            pure (some a, some b)
          | .Ratio4x3 => shape4x3 w h bw bh
          | _ => pure (none, none))
        pure (some winGravityCenter, wh.1, wh.2)))

/-- The `WinOpt` request record of `lib.rs`. -/
structure WinOpt where
  win : Option Nat
  w : Option Nat
  h : Option Nat
  x : Option Nat
  y : Option Nat
  shape : Option WinShape
  pos : Option WinPosition

/-- `WinOpt::any`: is any manipulation option set? -/
def WinOpt.any (o : WinOpt) : Bool :=
  o.w.isSome || o.h.isSome || o.x.isSome || o.y.isSome ||
    o.shape.isSome || o.pos.isSome

/-- `WinOpt::place`: connect to the window manager, read the active
window id (evaluated eagerly — Rust's `unwrap_or` evaluates its argument
even when the explicit window is set), resolve the target window, read
its borders and geometry — each of these four steps fallible and
`?`-propagated — then shape if a shape or explicit size was requested,
position if a position or explicit location was requested, and dispatch
one final move-resize message only if any option was set.  The connect
result carries the session facts; the per-window queries are fallible
functions of the window id.  Returns the action messages dispatched (in
order) and the result. -/
def place (connect : Except WmErr Env) (activeRes : Except WmErr Nat)
    (bordersQ : Nat → Except WmErr (Nat × Nat × Nat × Nat))
    (geometryQ : Nat → Except WmErr (Int × Int × Nat × Nat)) (o : WinOpt) :
    List CMsg × Except WmErr Unit :=
  let execute := o.any
  match connect with
  | .error e => ([], .error e)
  | .ok env =>
  match activeRes with
  | .error e => ([], .error e)
  | .ok active =>
  let win := o.win.getD active
  match bordersQ win with
  | .error e => ([], .error e)
  | .ok (bl, br, bt, bb) =>
  match geometryQ win with
  | .error e => ([], .error e)
  | .ok (_, _, w, h) =>
  let step1 : List CMsg × Except WmErr (Option Nat × Option Nat × Option Nat) :=
    match o.shape with
    | some shape =>
      match addU32 bl br with
      | .error e => ([], .error e)
      | .ok cbw =>
        match addU32 bt bb with
        | .error e => ([], .error e)
        | .ok cbh =>
          let (tr, res) := shape_win env win w h cbw cbh shape
          match res with
          | .error e => (tr, .error e)
          | .ok (g, sw, sh) =>
            if o.pos.isSome || o.x.isSome || o.y.isSome then (tr, .ok (none, sw, sh))
            else (tr, .ok (g, sw, sh))
    | none =>
      if o.w.isSome && o.h.isSome then ([], .ok (none, o.w, o.h))
      else ([], .ok (none, none, none))
  match step1 with
  | (tr1, .error e) => (tr1, .error e)
  | (tr1, .ok (g, sw, sh)) =>
    let step2 : List CMsg × Except WmErr (Option Nat × Option Nat) :=
      match o.pos with
      | some pos =>
        match addU32 bl br with
        | .error e => ([], .error e)
        | .ok cbw =>
          match addU32 bt bb with
          | .error e => ([], .error e)
          | .ok cbh => move_win env win (sw.getD w) (sh.getD h) cbw cbh pos
      | none =>
        if o.x.isSome && o.y.isSome then ([], .ok (o.x, o.y))
        else ([], .ok (none, none))
    match step2 with
    | (tr2, .error e) => (tr1 ++ tr2, .error e)
    | (tr2, .ok (px, py)) =>
      if execute then (tr1 ++ tr2 ++ [move_resize_window win g px py sw sh], .ok ())
      else (tr1 ++ tr2, .ok ())

/-! ### Basic lemmas about the embedding -/

theorem exbind_ok {α β : Type} (a : α) (f : α → Except WmErr β) :
    (Except.ok a : Except WmErr α) >>= f = f a := rfl

theorem expure {α : Type} (a : α) : (pure a : Except WmErr α) = Except.ok a := rfl

theorem addU32_ok {a b : Nat} (h : a + b < U32LIM) : addU32 a b = .ok (a + b) := by
  unfold addU32
  exact if_pos h

theorem subU32_ok {a b : Nat} (h : b ≤ a) : subU32 a b = .ok (a - b) := by
  unfold subU32
  exact if_pos h

theorem addI32_ok {a b : Int} (h : I32MIN ≤ a + b ∧ a + b ≤ I32MAX) :
    addI32 a b = .ok (a + b) := by
  unfold addI32
  exact if_pos h

theorem subI32_ok {a b : Int} (h : I32MIN ≤ a - b ∧ a - b ≤ I32MAX) :
    subI32 a b = .ok (a - b) := by
  unfold subI32
  exact if_pos h

theorem nlog2Aux_eq_log2 (fuel n : Nat) (h : n ≤ fuel) : nlog2Aux fuel n = Nat.log2 n := by
  induction fuel generalizing n with
  | zero =>
    have hn : n = 0 := by omega
    subst hn
    simp [nlog2Aux, Nat.log2]
  | succ fuel ih =>
    rw [nlog2Aux]
    by_cases h2 : 2 ≤ n
    · rw [if_pos h2]
      conv_rhs => rw [Nat.log2]
      rw [if_pos h2]
      exact congrArg (· + 1) (ih (n / 2) (by omega))
    · rw [if_neg h2]
      conv_rhs => rw [Nat.log2]
      rw [if_neg h2]

theorem nlog2_eq_log2 (n : Nat) : nlog2 n = Nat.log2 n :=
  nlog2Aux_eq_log2 n n (Nat.le_refl n)

theorem nlog2_spec (n : Nat) (h : n ≠ 0) : 2 ^ nlog2 n ≤ n ∧ n < 2 ^ (nlog2 n + 1) := by
  rw [nlog2_eq_log2]
  exact ⟨Nat.log2_self_le h, Nat.lt_log2_self⟩

theorem nlog2_le_iff {n k : Nat} (h : n ≠ 0) : nlog2 n < k ↔ n < 2 ^ k := by
  rw [nlog2_eq_log2]
  exact Nat.log2_lt h

theorem le_nlog2_iff {n k : Nat} (h : n ≠ 0) : k ≤ nlog2 n ↔ 2 ^ k ≤ n := by
  rw [nlog2_eq_log2]
  exact Nat.le_log2 h

/-- The rounded quotient of `rneDiv` is within half a divisor of the
dividend: `|b * rneDiv a b - a| ≤ b / 2`, stated without subtraction. -/
theorem rneDiv_bounds (a b : Nat) (hb : 0 < b) :
    2 * a ≤ 2 * (b * rneDiv a b) + b ∧ 2 * (b * rneDiv a b) ≤ 2 * a + b := by
  have hdm := Nat.div_add_mod a b
  have hmlt : a % b < b := Nat.mod_lt a hb
  have hd1 : b * (a / b + 1) = b * (a / b) + b := by ring
  unfold rneDiv
  by_cases h1 : 2 * (a % b) < b
  · rw [if_pos h1]
    omega
  · rw [if_neg h1]
    by_cases h2 : b < 2 * (a % b)
    · rw [if_pos h2]
      omega
    · rw [if_neg h2]
      by_cases h3 : a / b % 2 = 0
      · rw [if_pos h3]
        omega
      · rw [if_neg h3]
        omega

/-! ### Claim theorems -/

/-- Helper: the full input-output behaviour of `move_win` when the
placement preconditions hold. -/
theorem move_win_spec (env : Env) (win w h bw bh : Nat) (pos : WinPosition)
    (hW : env.work_width < U32LIM) (hH : env.work_height < U32LIM)
    (h1 : w + bw ≤ env.work_width) (h2 : h + bh ≤ env.work_height) :
    move_win env win w h bw bh pos =
      ([unmaximize_window win], .ok
        (match pos with
        | .Center => (some (env.work_width / 2 - (w + bw) / 2),
            some (env.work_height / 2 - (h + bh) / 2))
        | .Left => (some 0, none)
        | .Right => (some (env.work_width - w - bw), none)
        | .Top => (none, some 0)
        | .Bottom => (none, some (env.work_height - h - bh))
        | .TopLeft => (some 0, some 0)
        | .TopRight => (some (env.work_width - w - bw), some 0)
        | .BottomLeft => (some 0, some (env.work_height - h - bh))
        | .BottomRight => (some (env.work_width - w - bw),
            some (env.work_height - h - bh))
        | .LeftCenter => (some 0, some (env.work_height / 2 - (h + bh) / 2))
        | .RightCenter => (some (env.work_width - w - bw),
            some (env.work_height / 2 - (h + bh) / 2))
        | .TopCenter => (some (env.work_width / 2 - (w + bw) / 2), some 0)
        | .BottomCenter => (some (env.work_width / 2 - (w + bw) / 2),
            some (env.work_height - h - bh)))) := by
  have a1 : addU32 w bw = .ok (w + bw) := addU32_ok (by omega)
  have a2 : subU32 (env.work_width / 2) ((w + bw) / 2) =
      .ok (env.work_width / 2 - (w + bw) / 2) := subU32_ok (by omega)
  have a3 : addU32 h bh = .ok (h + bh) := addU32_ok (by omega)
  have a4 : subU32 (env.work_height / 2) ((h + bh) / 2) =
      .ok (env.work_height / 2 - (h + bh) / 2) := subU32_ok (by omega)
  have a5 : subU32 env.work_width w = .ok (env.work_width - w) := subU32_ok (by omega)
  have a6 : subU32 (env.work_width - w) bw = .ok (env.work_width - w - bw) :=
    subU32_ok (by omega)
  have a7 : subU32 env.work_height h = .ok (env.work_height - h) := subU32_ok (by omega)
  have a8 : subU32 (env.work_height - h) bh = .ok (env.work_height - h - bh) :=
    subU32_ok (by omega)
  simp only [move_win, a1, a2, a3, a4, a5, a6, a7, a8, exbind_ok, expure]

/-- Claim C2: position resolution first issues an unmaximize action, then
computes center-x = W/2 - (w+bw)/2, center-y = H/2 - (h+bh)/2,
right-x = W - w - bw, bottom-y = H - h - bh, each preset picking 0, the
center value or the far-edge value per axis (or leaving an axis unset). -/
theorem c2_move_win_positions (env : Env) (win w h bw bh : Nat) (pos : WinPosition)
    (hW : env.work_width < U32LIM) (hH : env.work_height < U32LIM)
    (h1 : w + bw ≤ env.work_width) (h2 : h + bh ≤ env.work_height) :
    move_win env win w h bw bh pos =
      ([unmaximize_window win], .ok
        (match pos with
        | .Center => (some (env.work_width / 2 - (w + bw) / 2),
            some (env.work_height / 2 - (h + bh) / 2))
        | .Left => (some 0, none)
        | .Right => (some (env.work_width - w - bw), none)
        | .Top => (none, some 0)
        | .Bottom => (none, some (env.work_height - h - bh))
        | .TopLeft => (some 0, some 0)
        | .TopRight => (some (env.work_width - w - bw), some 0)
        | .BottomLeft => (some 0, some (env.work_height - h - bh))
        | .BottomRight => (some (env.work_width - w - bw),
            some (env.work_height - h - bh))
        | .LeftCenter => (some 0, some (env.work_height / 2 - (h + bh) / 2))
        | .RightCenter => (some (env.work_width - w - bw),
            some (env.work_height / 2 - (h + bh) / 2))
        | .TopCenter => (some (env.work_width / 2 - (w + bw) / 2), some 0)
        | .BottomCenter => (some (env.work_width / 2 - (w + bw) / 2),
            some (env.work_height - h - bh)))) :=
  move_win_spec env win w h bw bh pos hW hH h1 h2

/-- Witness for C2 at the spec's concrete inputs: work area 1920x1080,
target 800x600, zero borders; Center yields (560, 240), TopRight yields
(1120, 0), BottomLeft yields (0, 480). -/
theorem c2_move_win_positions_witness :
    (move_win ⟨1920, 1080, 1920, 1080, 1, (0, 0, 0, 0), (0, 0, 0, 0)⟩ 7 800 600 0 0
        .Center).2 = .ok (some 560, some 240) ∧
    (move_win ⟨1920, 1080, 1920, 1080, 1, (0, 0, 0, 0), (0, 0, 0, 0)⟩ 7 800 600 0 0
        .TopRight).2 = .ok (some 1120, some 0) ∧
    (move_win ⟨1920, 1080, 1920, 1080, 1, (0, 0, 0, 0), (0, 0, 0, 0)⟩ 7 800 600 0 0
        .BottomLeft).2 = .ok (some 0, some 480) := by
  refine ⟨?_, ?_, ?_⟩
  · rw [c2_move_win_positions _ 7 800 600 0 0 .Center (by decide) (by decide)
      (by decide) (by decide)]
    rfl
  · rw [c2_move_win_positions _ 7 800 600 0 0 .TopRight (by decide) (by decide)
      (by decide) (by decide)]
    rfl
  · rw [c2_move_win_positions _ 7 800 600 0 0 .BottomLeft (by decide) (by decide)
      (by decide) (by decide)]
    rfl

/-- Claim C5 counterexample: an all-None placement request still
performs the connect and the per-window queries before the no-op early
return; with `_NET_FRAME_EXTENTS` absent the border accessor's
PropertyNotFound propagates out of `place`, so the claim's unconditional
"returns success" is false — even though zero action messages are
dispatched. -/
theorem c5_place_noop_counterexample :
    place (.ok ⟨1920, 1080, 1920, 1080, 1, (0, 0, 0, 0), (0, 0, 0, 0)⟩) (.ok 7)
      (fun _ => window_borders ⟨0, 0, []⟩) (fun _ => .ok (0, 0, 500, 400))
      ⟨none, none, none, none, none, none, none⟩ =
      ([], .error (.propertyNotFound "_NET_FRAME_EXTENTS")) := rfl

/-- Claim C5 as amended: a placement request with no size, location,
shape or position set dispatches zero action messages whatever the
connect and query outcomes; and provided the connect, the active-window
read, the border query and the geometry query all succeed, it returns
success (a pure no-op, not an error) — a failing query propagates its
error instead, still with zero messages sent. -/
theorem c5_place_noop (connect : Except WmErr Env) (activeRes : Except WmErr Nat)
    (bordersQ : Nat → Except WmErr (Nat × Nat × Nat × Nat))
    (geometryQ : Nat → Except WmErr (Int × Int × Nat × Nat)) (winId : Option Nat) :
    (place connect activeRes bordersQ geometryQ
      ⟨winId, none, none, none, none, none, none⟩).1 = [] ∧
    (∀ (env : Env) (active bl br bt bb : Nat) (x y : Int) (w h : Nat),
      connect = .ok env → activeRes = .ok active →
      bordersQ (winId.getD active) = .ok (bl, br, bt, bb) →
      geometryQ (winId.getD active) = .ok (x, y, w, h) →
      place connect activeRes bordersQ geometryQ
        ⟨winId, none, none, none, none, none, none⟩ = ([], .ok ())) := by
  constructor
  · rcases connect with e | env
    · rfl
    rcases activeRes with e | active
    · rfl
    rcases hb : bordersQ (winId.getD active) with e | bords
    · simp [place, hb]
    rcases bords with ⟨bl, br, bt, bb⟩
    rcases hg : geometryQ (winId.getD active) with e | geo
    · simp [place, hb, hg]
    rcases geo with ⟨x, y, w, h⟩
    simp [place, hb, hg, WinOpt.any]
  · intro env active bl br bt bb x y w h hc ha hb hg
    subst hc
    subst ha
    simp [place, hb, hg, WinOpt.any]

/-- Witness for C5's amended theorem: succeeding connect and queries
give the pure no-op. -/
theorem c5_place_noop_witness :
    place (.ok ⟨1920, 1080, 1920, 1080, 1, (0, 0, 0, 0), (0, 0, 0, 0)⟩) (.ok 7)
      (fun _ => .ok (1, 2, 3, 4)) (fun _ => .ok (5, 6, 700, 800))
      ⟨none, none, none, none, none, none, none⟩ = ([], .ok ()) :=
  (c5_place_noop (.ok ⟨1920, 1080, 1920, 1080, 1, (0, 0, 0, 0), (0, 0, 0, 0)⟩)
      (.ok 7) (fun _ => .ok (1, 2, 3, 4)) (fun _ => .ok (5, 6, 700, 800)) none).2
    ⟨1920, 1080, 1920, 1080, 1, (0, 0, 0, 0), (0, 0, 0, 0)⟩ 7 1 2 3 4 5 6 700 800
    rfl rfl rfl rfl

/-- Claim C9: every sizing shape (all but Max/UnMax) dispatches exactly
one unmaximize action (before any size arithmetic, hence also when that
arithmetic fails); Max dispatches exactly one maximize action and UnMax
exactly one unmaximize action, both computing no size. -/
theorem c9_shape_side_effects :
    (∀ env win w h bw bh, shape_win env win w h bw bh .Max =
      ([maximize_window win], .ok (none, none, none))) ∧
    (∀ env win w h bw bh, shape_win env win w h bw bh .UnMax =
      ([unmaximize_window win], .ok (none, none, none))) ∧
    (∀ env win w h bw bh, (shape_win env win w h bw bh .Grow).1 =
      [unmaximize_window win]) ∧
    (∀ env win w h bw bh, (shape_win env win w h bw bh .Shrink).1 =
      [unmaximize_window win]) ∧
    (∀ env win w h bw bh, (shape_win env win w h bw bh .Halfw).1 =
      [unmaximize_window win]) ∧
    (∀ env win w h bw bh, (shape_win env win w h bw bh .Halfh).1 =
      [unmaximize_window win]) ∧
    (∀ env win w h bw bh, (shape_win env win w h bw bh .Small).1 =
      [unmaximize_window win]) ∧
    (∀ env win w h bw bh, (shape_win env win w h bw bh .Medium).1 =
      [unmaximize_window win]) ∧
    (∀ env win w h bw bh, (shape_win env win w h bw bh .Large).1 =
      [unmaximize_window win]) ∧
    (∀ env win w h bw bh, (shape_win env win w h bw bh .Ratio4x3).1 =
      [unmaximize_window win]) := by
  refine ⟨?_, ?_, ?_, ?_, ?_, ?_, ?_, ?_, ?_, ?_⟩ <;> intros <;> rfl

/-- Claim C10: under the preconditions w+bw ≤ W, h+bh ≤ H (and
bw ≤ W/2, bh ≤ H/2 for the Halfw/Halfh/Small shapes) none of the
unsigned subtractions of position resolution or of those shape branches
underflows; without the precondition the computation fails (the last
conjunct shows a concrete underflow). -/
theorem c10_placement_subtraction_safety (env : Env) (win w h bw bh : Nat)
    (pos : WinPosition)
    (hW : env.work_width < U32LIM) (hH : env.work_height < U32LIM)
    (h1 : w + bw ≤ env.work_width) (h2 : h + bh ≤ env.work_height)
    (h3 : bw ≤ env.work_width / 2) (h4 : bh ≤ env.work_height / 2) :
    ((move_win env win w h bw bh pos).2.isOk = true ∧
      (shape_win env win w h bw bh .Halfw).2.isOk = true ∧
      (shape_win env win w h bw bh .Halfh).2.isOk = true ∧
      (shape_win env win w h bw bh .Small).2.isOk = true) ∧
    (move_win ⟨100, 100, 100, 100, 0, (0, 0, 0, 0), (0, 0, 0, 0)⟩ 0 200 0 0 0
        .Center).2 = .error (.arithPanic "u32 sub underflow") := by
  constructor
  · refine ⟨?_, ?_, ?_, ?_⟩
    · rw [move_win_spec env win w h bw bh pos hW hH h1 h2]
      rfl
    · have a1 : subU32 (env.work_width / 2) bw = .ok (env.work_width / 2 - bw) :=
        subU32_ok (by omega)
      have a2 : subU32 env.work_height bh = .ok (env.work_height - bh) :=
        subU32_ok (by omega)
      simp only [shape_win, a1, a2, exbind_ok, expure]
      rfl
    · have a1 : subU32 env.work_width bw = .ok (env.work_width - bw) :=
        subU32_ok (by omega)
      have a2 : subU32 (env.work_height / 2) bh = .ok (env.work_height / 2 - bh) :=
        subU32_ok (by omega)
      simp only [shape_win, a1, a2, exbind_ok, expure]
      rfl
    · have a1 : subU32 (env.work_width / 2) bw = .ok (env.work_width / 2 - bw) :=
        subU32_ok (by omega)
      have a2 : subU32 (env.work_height / 2) bh = .ok (env.work_height / 2 - bh) :=
        subU32_ok (by omega)
      simp only [shape_win, a1, a2, exbind_ok, expure]
      rfl
  · rfl

/-- Claim C7: the explicit window-manager border accessor fails with
PropertyNotFound when the `_NET_FRAME_EXTENTS` reply is absent (not a
32-bit-format reply) or carries fewer than four 32-bit values, while the
client-shadow border accessor returns (0, 0, 0, 0) when the
`_GTK_FRAME_EXTENTS` value is empty. -/
theorem c7_border_accessors :
    (∀ r : Reply, r.format ≠ 32 →
      window_borders r = .error (.propertyNotFound "_NET_FRAME_EXTENTS")) ∧
    (∀ (r : Reply) (vs : List Nat), r.value32 = some vs → vs.length < 4 →
      ∃ s, window_borders r = .error (.propertyNotFound s)) ∧
    (∀ r : Reply, r.value = [] → window_gnome_borders r = .ok (0, 0, 0, 0)) := by
  refine ⟨?_, ?_, ?_⟩
  · intro r hfmt
    unfold window_borders Reply.value32
    rw [if_neg hfmt]
  · intro r vs hval hlen
    unfold window_borders
    rw [hval]
    rcases vs with _ | ⟨a, _ | ⟨b, _ | ⟨c, _ | ⟨d, rest⟩⟩⟩⟩
    · exact ⟨_, rfl⟩
    · exact ⟨_, rfl⟩
    · exact ⟨_, rfl⟩
    · exact ⟨_, rfl⟩
    · simp only [List.length_cons] at hlen
      omega
  · intro r hv
    unfold window_gnome_borders
    rw [if_pos hv]

/-- Witness for C7: an absent reply (type NONE, format 0, empty value),
a well-formed reply with only three 32-bit values, and an absent
`_GTK_FRAME_EXTENTS` reply. -/
theorem c7_border_accessors_witness :
    window_borders ⟨0, 0, []⟩ = .error (.propertyNotFound "_NET_FRAME_EXTENTS") ∧
    (∃ s, window_borders ⟨6, 32, [1, 0, 0, 0, 2, 0, 0, 0, 3, 0, 0, 0]⟩ =
      .error (.propertyNotFound s)) ∧
    window_gnome_borders ⟨0, 0, []⟩ = .ok (0, 0, 0, 0) := by
  obtain ⟨h1, h2, h3⟩ := c7_border_accessors
  exact ⟨h1 ⟨0, 0, []⟩ (by decide),
    h2 ⟨6, 32, [1, 0, 0, 0, 2, 0, 0, 0, 3, 0, 0, 0]⟩ [1, 2, 3] (by decide) (by decide),
    h3 ⟨0, 0, []⟩ rfl⟩

/-- Claim C8: name resolution tries `_NET_WM_VISIBLE_NAME`, then
`_NET_WM_NAME`, then legacy `WM_NAME`, in that order, returning the first
value that is present, decodes as UTF-8 and is non-empty; if all three
are absent or empty it fails with PropertyNotFound. -/
theorem c8_window_name_fallback :
    (∀ r1 r2 r3 : Reply, r1.type_ ≠ 0 → validUtf8 r1.value = true → r1.value ≠ [] →
      window_name r1 r2 r3 = .ok r1.value) ∧
    (∀ r1 r2 r3 : Reply,
      (r1.type_ = 0 ∨ validUtf8 r1.value = false ∨ r1.value = []) →
      r2.type_ ≠ 0 → validUtf8 r2.value = true → r2.value ≠ [] →
      window_name r1 r2 r3 = .ok r2.value) ∧
    (∀ r1 r2 r3 : Reply,
      (r1.type_ = 0 ∨ validUtf8 r1.value = false ∨ r1.value = []) →
      (r2.type_ = 0 ∨ validUtf8 r2.value = false ∨ r2.value = []) →
      r3.type_ ≠ 0 → validUtf8 r3.value = true → r3.value ≠ [] →
      window_name r1 r2 r3 = .ok r3.value) ∧
    (∀ r1 r2 r3 : Reply,
      (r1.type_ = 0 ∨ r1.value = []) → (r2.type_ = 0 ∨ r2.value = []) →
      (r3.type_ = 0 ∨ r3.value = []) →
      window_name r1 r2 r3 =
        .error (.propertyNotFound "_NET_WM_NAME | _WM_NAME")) := by
  have nofire : ∀ r : Reply, (r.type_ = 0 ∨ validUtf8 r.value = false ∨ r.value = []) →
      ¬(r.type_ ≠ 0 ∧ validUtf8 r.value ∧ r.value ≠ []) := by
    rintro r (h | h | h) ⟨a, b, c⟩
    · exact a h
    · rw [h] at b
      cases b
    · exact c h
  refine ⟨?_, ?_, ?_, ?_⟩
  · intro r1 r2 r3 h1 h2 h3
    unfold window_name
    rw [if_pos ⟨h1, h2, h3⟩]
  · intro r1 r2 r3 hfail h1 h2 h3
    unfold window_name
    rw [if_neg (nofire r1 hfail), if_pos ⟨h1, h2, h3⟩]
  · intro r1 r2 r3 hfail1 hfail2 h1 h2 h3
    unfold window_name
    rw [if_neg (nofire r1 hfail1), if_neg (nofire r2 hfail2), if_pos ⟨h1, h2, h3⟩]
  · intro r1 r2 r3 hfail1 hfail2 hfail3
    have w : ∀ r : Reply, (r.type_ = 0 ∨ r.value = []) →
        (r.type_ = 0 ∨ validUtf8 r.value = false ∨ r.value = []) := by
      rintro r (h | h)
      · exact Or.inl h
      · exact Or.inr (Or.inr h)
    unfold window_name
    rw [if_neg (nofire r1 (w r1 hfail1)), if_neg (nofire r2 (w r2 hfail2)),
      if_neg (nofire r3 (w r3 hfail3))]

/-- Witness for C8: visible name absent, `_NET_WM_NAME` carrying "hi"
(bytes 104 105), legacy name irrelevant; resolution falls back to the
second property. -/
theorem c8_window_name_fallback_witness :
    window_name ⟨0, 0, []⟩ ⟨42, 8, [104, 105]⟩ ⟨0, 0, []⟩ = .ok [104, 105] :=
  c8_window_name_fallback.2.1 ⟨0, 0, []⟩ ⟨42, 8, [104, 105]⟩ ⟨0, 0, []⟩
    (Or.inl rfl) (by decide) (by decide) (by decide)

/-- Claim C6 counterexample: the claim asserts the second send happens
unconditionally on the outcome of the first; but when the first checked
send of a `_NET_MOVERESIZE_WINDOW` message fails, the error propagates
and the message is sent exactly once, not twice. -/
theorem c6_send_event_counterexample :
    countSends (send_event (fun _ => false) 0
      (move_resize_window 1 none none none (some 500) (some 500))).1 = 1 := rfl

/-- Claim C6 as amended: when every transport call succeeds, a
`_NET_MOVERESIZE_WINDOW` message is sent, checked and flushed, then after
a fixed 50 ms delay sent, checked and flushed a second time (exactly two
sends), and a message of any other type is sent exactly once; if the
first checked send fails the error propagates and no retry occurs. -/
theorem c6_send_event_amended (ok : Nat → Bool) (root : Nat) (msg : CMsg)
    (hok : ∀ i, ok i = true) :
    (msg.mtype = .NET_MOVERESIZE_WINDOW →
      send_event ok root msg =
        ([.sendChecked root msg, .flush, .sleepMs 50, .sendChecked root msg, .flush],
          true) ∧
      countSends (send_event ok root msg).1 = 2) ∧
    (msg.mtype ≠ .NET_MOVERESIZE_WINDOW →
      send_event ok root msg = ([.sendChecked root msg, .flush], true) ∧
      countSends (send_event ok root msg).1 = 1) ∧
    (∀ bad : Nat → Bool, bad 0 = false →
      (send_event bad root msg).1 = [.sendChecked root msg]) := by
  have h0 := hok 0
  have h1 := hok 1
  have h2 := hok 2
  have h3 := hok 3
  refine ⟨?_, ?_, ?_⟩
  · intro hm
    have he : send_event ok root msg =
        ([.sendChecked root msg, .flush, .sleepMs 50, .sendChecked root msg, .flush],
          true) := by
      unfold send_event
      rw [h0, h1, h2, h3, if_pos hm]
      rfl
    refine ⟨he, ?_⟩
    rw [he]
    rfl
  · intro hm
    have he : send_event ok root msg = ([.sendChecked root msg, .flush], true) := by
      unfold send_event
      rw [h0, h1, if_neg hm]
      rfl
    refine ⟨he, ?_⟩
    rw [he]
    rfl
  · intro bad hbad
    unfold send_event
    rw [hbad]
    rfl

/-- Witness for C6's amended theorem: an always-succeeding transport, a
concrete move-resize message (two sends) and a concrete unmaximize
message (one send). -/
theorem c6_send_event_amended_witness :
    send_event (fun _ => true) 0 (move_resize_window 1 none none (some 500) (some 500) none)
        = ([.sendChecked 0 (move_resize_window 1 none none (some 500) (some 500) none),
            .flush, .sleepMs 50,
            .sendChecked 0 (move_resize_window 1 none none (some 500) (some 500) none),
            .flush], true) ∧
    send_event (fun _ => true) 0 (unmaximize_window 9) =
      ([.sendChecked 0 (unmaximize_window 9), .flush], true) := by
  refine ⟨?_, ?_⟩
  · exact ((c6_send_event_amended (fun _ => true) 0
      (move_resize_window 1 none none (some 500) (some 500) none)
      (fun _ => rfl)).1 rfl).1
  · exact ((c6_send_event_amended (fun _ => true) 0 (unmaximize_window 9)
      (fun _ => rfl)).2.1 (by decide)).1

/-- Helper: or-ing a value whose low byte is zero leaves the low byte of
the other operand unchanged. -/
theorem lor_mod_two_pow_eight {g K : Nat} (hg : g < 256) (hK : K % 256 = 0) :
    (g ||| K) % 256 = g := by
  have h256 : (256 : Nat) = 2 ^ 8 := by norm_num
  apply Nat.eq_of_testBit_eq
  intro i
  rw [h256, Nat.testBit_mod_two_pow, Nat.testBit_lor]
  by_cases hi : i < 8
  · have hKb : K.testBit i = false := by
      have hmod := Nat.testBit_mod_two_pow K 8 i
      rw [← h256, hK, Nat.zero_testBit] at hmod
      simpa [hi] using hmod.symm
    simp [hi, hKb]
  · have hgb : g.testBit i = false := by
      apply Nat.testBit_lt_two_pow
      calc g < 256 := hg
        _ = 2 ^ 8 := h256
        _ ≤ 2 ^ i := Nat.pow_le_pow_right (by norm_num) (by omega)
    simp [hi, hgb]

/-- Helper: the presence-bit word of the move-resize flags. -/
theorem mrw_kword_facts (b1 b2 b3 b4 : Bool) :
    (cond b1 256 0 |||
        (cond b2 512 0 ||| (cond b3 1024 0 ||| cond b4 2048 0))) % 256 = 0 ∧
    (cond b1 256 0 |||
        (cond b2 512 0 ||| (cond b3 1024 0 ||| cond b4 2048 0))).testBit 8 = b1 ∧
    (cond b1 256 0 |||
        (cond b2 512 0 ||| (cond b3 1024 0 ||| cond b4 2048 0))).testBit 9 = b2 ∧
    (cond b1 256 0 |||
        (cond b2 512 0 ||| (cond b3 1024 0 ||| cond b4 2048 0))).testBit 10 = b3 ∧
    (cond b1 256 0 |||
        (cond b2 512 0 ||| (cond b3 1024 0 ||| cond b4 2048 0))).testBit 11 = b4 ∧
    ∀ i, i ≠ 8 → i ≠ 9 → i ≠ 10 → i ≠ 11 →
      (cond b1 256 0 |||
        (cond b2 512 0 ||| (cond b3 1024 0 ||| cond b4 2048 0))).testBit i = false := by
  cases b1 <;> cases b2 <;> cases b3 <;> cases b4 <;>
    refine ⟨by decide, by decide, by decide, by decide, by decide, ?_⟩ <;>
    (intro i h8 h9 h10 h11
     by_cases hi : i < 12
     · interval_cases i <;> revert h8 h9 h10 h11 <;> decide
     · apply Nat.testBit_lt_two_pow
       apply Nat.lt_of_lt_of_le _ (Nat.pow_le_pow_right (by norm_num) (by omega : 12 ≤ i))
       decide)

/-- Helper: the if-chain of `mrwFlags` equals gravity or-ed with the
presence-bit word. -/
theorem mrwFlags_eq (gravity x y w h : Option Nat) :
    mrwFlags gravity x y w h =
      gravity.getD 0 |||
        (cond x.isSome 256 0 |||
          (cond y.isSome 512 0 ||| (cond w.isSome 1024 0 ||| cond h.isSome 2048 0))) := by
  cases hx : x.isSome <;> cases hy : y.isSome <;> cases hw : w.isSome <;>
      cases hh : h.isSome <;>
    simp [mrwFlags, MOVE_RESIZE_WINDOW_X, MOVE_RESIZE_WINDOW_Y, MOVE_RESIZE_WINDOW_WIDTH,
      MOVE_RESIZE_WINDOW_HEIGHT, hx, hy, hw, hh, Nat.lor_assoc]

/-- Claim C4: the move-resize message's word 0 is the gravity value (0
when absent) or-ed with exactly one presence bit (8, 9, 10, 11) per
present field among x, y, width, height — its low byte is exactly the
gravity and its bits 8-11 are exactly the presence flags — and words 1-4
carry x, y, width, height with 0 substituted for absent fields. -/
theorem c4_move_resize_encoding (id : Nat) (gravity x y w h : Option Nat)
    (hg : gravity.getD 0 < 256) :
    (move_resize_window id gravity x y w h).data =
      [.num (mrwFlags gravity x y w h), .num (x.getD 0), .num (y.getD 0),
        .num (w.getD 0), .num (h.getD 0)] ∧
    mrwFlags gravity x y w h =
      gravity.getD 0 |||
        (cond x.isSome 256 0 |||
          (cond y.isSome 512 0 ||| (cond w.isSome 1024 0 ||| cond h.isSome 2048 0))) ∧
    mrwFlags gravity x y w h % 256 = gravity.getD 0 ∧
    (mrwFlags gravity x y w h).testBit 8 = x.isSome ∧
    (mrwFlags gravity x y w h).testBit 9 = y.isSome ∧
    (mrwFlags gravity x y w h).testBit 10 = w.isSome ∧
    (mrwFlags gravity x y w h).testBit 11 = h.isSome ∧
    (∀ i, i ≠ 8 → i ≠ 9 → i ≠ 10 → i ≠ 11 →
      (mrwFlags gravity x y w h).testBit i = (gravity.getD 0).testBit i) := by
  obtain ⟨hK0, hK8, hK9, hK10, hK11, hKout⟩ :=
    mrw_kword_facts x.isSome y.isSome w.isSome h.isSome
  have hfe := mrwFlags_eq gravity x y w h
  have hg8 : (gravity.getD 0).testBit 8 = false := Nat.testBit_lt_two_pow (by omega)
  have hg9 : (gravity.getD 0).testBit 9 = false := Nat.testBit_lt_two_pow (by omega)
  have hg10 : (gravity.getD 0).testBit 10 = false := Nat.testBit_lt_two_pow (by omega)
  have hg11 : (gravity.getD 0).testBit 11 = false := Nat.testBit_lt_two_pow (by omega)
  refine ⟨rfl, hfe, ?_, ?_, ?_, ?_, ?_, ?_⟩
  · rw [hfe]
    exact lor_mod_two_pow_eight hg hK0
  · rw [hfe, Nat.testBit_lor, hg8, hK8, Bool.false_or]
  · rw [hfe, Nat.testBit_lor, hg9, hK9, Bool.false_or]
  · rw [hfe, Nat.testBit_lor, hg10, hK10, Bool.false_or]
  · rw [hfe, Nat.testBit_lor, hg11, hK11, Bool.false_or]
  · intro i h8 h9 h10 h11
    rw [hfe, Nat.testBit_lor, hKout i h8 h9 h10 h11, Bool.or_false]

/-- Witness for C4: width and height present, x and y absent, gravity 5;
the flags word has low byte 5, presence bits 10 and 11 set and bits 8, 9
clear, and the x/y parameters are 0. -/
theorem c4_move_resize_encoding_witness :
    mrwFlags (some 5) none none (some 500) (some 500) % 256 = 5 ∧
    (mrwFlags (some 5) none none (some 500) (some 500)).testBit 8 = false ∧
    (mrwFlags (some 5) none none (some 500) (some 500)).testBit 10 = true := by
  have hc := c4_move_resize_encoding 1 (some 5) none none (some 500) (some 500) (by decide)
  exact ⟨hc.2.2.1, hc.2.2.2.1, hc.2.2.2.2.2.1⟩

/-- Claim C1: once the raw geometry is translated, geometry resolution
applies exactly one of two opposite-signed corrections: non-zero
`_NET_FRAME_EXTENTS` expand the rectangle, all-zero frame extents fall
back to `_GTK_FRAME_EXTENTS` which contract it, and when both report all
zeros the translated raw geometry is returned unchanged. -/
theorem c1_window_geometry_borders
    (x y : Int) (w h : Nat) (fr gk : Reply) (l r t b gl gr2 gt gb : Nat)
    (hf : window_borders fr = .ok (l, r, t, b))
    (hgn : window_gnome_borders gk = .ok (gl, gr2, gt, gb))
    (hx1 : -32768 ≤ x) (hx2 : x ≤ 32767) (hy1 : -32768 ≤ y) (hy2 : y ≤ 32767)
    (hl : l < 1073741824) (ht : t < 1073741824)
    (hglb : gl < 1073741824) (hgtb : gt < 1073741824)
    (hw : w + l + r < U32LIM) (hh : h + t + b < U32LIM)
    (hwlim : w < U32LIM) (hhlim : h < U32LIM)
    (hcw : gl + gr2 ≤ w) (hch : gt + gb ≤ h) :
    ((l ≠ 0 ∨ r ≠ 0 ∨ t ≠ 0 ∨ b ≠ 0) →
      window_geometry x y w h fr gk = .ok (x - l, y - t, w + l + r, h + t + b)) ∧
    (l = 0 → r = 0 → t = 0 → b = 0 →
      window_geometry x y w h fr gk =
        .ok (x + gl, y + gt, w - (gl + gr2), h - (gt + gb))) ∧
    (l = 0 → r = 0 → t = 0 → b = 0 → gl = 0 → gr2 = 0 → gt = 0 → gb = 0 →
      window_geometry x y w h fr gk = .ok (x, y, w, h)) := by
  have hIm : I32MIN = -2147483648 := rfl
  have hIM : I32MAX = 2147483647 := rfl
  have hul : u32AsI32 l = (l : Int) := by
    unfold u32AsI32
    rw [if_pos (by omega)]
  have hut : u32AsI32 t = (t : Int) := by
    unfold u32AsI32
    rw [if_pos (by omega)]
  have hugl : u32AsI32 gl = (gl : Int) := by
    unfold u32AsI32
    rw [if_pos (by omega)]
  have hugt : u32AsI32 gt = (gt : Int) := by
    unfold u32AsI32
    rw [if_pos (by omega)]
  have s1 : subI32 x (l : Int) = .ok (x - l) := subI32_ok (by rw [hIm, hIM]; omega)
  have s2 : subI32 y (t : Int) = .ok (y - t) := subI32_ok (by rw [hIm, hIM]; omega)
  have s3 : addI32 x (gl : Int) = .ok (x + gl) := addI32_ok (by rw [hIm, hIM]; omega)
  have s4 : addI32 y (gt : Int) = .ok (y + gt) := addI32_ok (by rw [hIm, hIM]; omega)
  have a1 : addU32 w l = .ok (w + l) := addU32_ok (by omega)
  have a2 : addU32 (w + l) r = .ok (w + l + r) := addU32_ok (by omega)
  have a3 : addU32 h t = .ok (h + t) := addU32_ok (by omega)
  have a4 : addU32 (h + t) b = .ok (h + t + b) := addU32_ok (by omega)
  have a5 : addU32 gl gr2 = .ok (gl + gr2) := addU32_ok (by omega)
  have a6 : subU32 w (gl + gr2) = .ok (w - (gl + gr2)) := subU32_ok (by omega)
  have a7 : addU32 gt gb = .ok (gt + gb) := addU32_ok (by omega)
  have a8 : subU32 h (gt + gb) = .ok (h - (gt + gb)) := subU32_ok (by omega)
  refine ⟨?_, ?_, ?_⟩
  · intro hnz
    simp only [window_geometry, hf, exbind_ok]
    rw [if_pos hnz]
    simp only [hul, hut, s1, s2, a1, a2, a3, a4, exbind_ok, expure]
  · intro hl0 hr0 ht0 hb0
    simp only [window_geometry, hf, exbind_ok]
    rw [if_neg (by simp [hl0, hr0, ht0, hb0])]
    simp only [hgn, exbind_ok, hugl, hugt, s3, s4, a5, a6, a7, a8, expure]
  · intro hl0 hr0 ht0 hb0 hgl0 hgr0 hgt0 hgb0
    subst hl0
    subst hr0
    subst ht0
    subst hb0
    subst hgl0
    subst hgr0
    subst hgt0
    subst hgb0
    simp only [window_geometry, hf, exbind_ok]
    rw [if_neg (by simp)]
    simp only [hgn, exbind_ok, hugl, hugt, s3, s4, a5, a6, a7, a8, expure]
    norm_num

/-- Witness for C1: frame extents (1, 2, 3, 4) expand the translated
rectangle (10, 20, 500, 400) to (9, 17, 503, 407); with frame extents
absent-all-zero and `_GTK_FRAME_EXTENTS` absent the rectangle is
unchanged. -/
theorem c1_window_geometry_borders_witness :
    window_geometry 10 20 500 400
        ⟨6, 32, [1, 0, 0, 0, 2, 0, 0, 0, 3, 0, 0, 0, 4, 0, 0, 0]⟩ ⟨0, 0, []⟩ =
      .ok (9, 17, 503, 407) ∧
    window_geometry 10 20 500 400
        ⟨6, 32, [0, 0, 0, 0, 0, 0, 0, 0, 0, 0, 0, 0, 0, 0, 0, 0]⟩ ⟨0, 0, []⟩ =
      .ok (10, 20, 500, 400) := by
  constructor
  · have hc := (c1_window_geometry_borders 10 20 500 400
      ⟨6, 32, [1, 0, 0, 0, 2, 0, 0, 0, 3, 0, 0, 0, 4, 0, 0, 0]⟩ ⟨0, 0, []⟩
      1 2 3 4 0 0 0 0 rfl rfl (by decide) (by decide) (by decide) (by decide)
      (by decide) (by decide) (by decide) (by decide) (by decide) (by decide)
      (by decide) (by decide) (by decide) (by decide)).1 (by decide)
    exact hc
  · have hc := (c1_window_geometry_borders 10 20 500 400
      ⟨6, 32, [0, 0, 0, 0, 0, 0, 0, 0, 0, 0, 0, 0, 0, 0, 0, 0]⟩ ⟨0, 0, []⟩
      0 0 0 0 0 0 0 0 rfl rfl (by decide) (by decide) (by decide) (by decide)
      (by decide) (by decide) (by decide) (by decide) (by decide) (by decide)
      (by decide) (by decide) (by decide) (by decide)).2.2 rfl rfl rfl rfl rfl rfl rfl rfl
    exact hc

/-- Helper: multiplying two small exact `f32` integers is exact. -/
theorem f32mul_small (a b : Nat) (hab : a * b < 16777216) :
    f32mul ⟨a, 0⟩ ⟨b, 0⟩ = ⟨a * b, 0⟩ := by
  unfold f32mul f32norm
  simp only []
  rw [if_pos hab]
  norm_num

/-- Helper: multiplying an exact `f32` integer by 4 when the product
needs 25 bits renormalizes the significand exactly (the product is
even, so no rounding happens). -/
theorem f32mul_shift4 (s : Nat) (hge : 16777216 ≤ s * 4) (hlt : s * 4 < 33554432) :
    f32mul ⟨s, 0⟩ ⟨4, 0⟩ = ⟨s * 2, 1⟩ := by
  have hlog : nlog2 (s * 4) = 24 := by
    have l1 := (le_nlog2_iff (by omega : s * 4 ≠ 0)).2
      (by norm_num at hge ⊢; omega : 2 ^ 24 ≤ s * 4)
    have l2 := (nlog2_le_iff (by omega : s * 4 ≠ 0)).2
      (by norm_num at hlt ⊢; omega : s * 4 < 2 ^ 25)
    omega
  unfold f32mul f32norm
  simp only []
  rw [if_neg (by omega)]
  simp only [hlog]
  have hpow : (2 : Nat) ^ (24 + 1 - 24) = 2 := by norm_num
  unfold rneDiv
  rw [hpow]
  have hq2 : s * 4 / 2 = s * 2 := by omega
  have hr2 : s * 4 % 2 = 0 := by omega
  rw [hq2, hr2]
  norm_num

/-- Helper: rounding `x * 2^c / 3` once to 24 significant bits and then
truncating the resulting dyadic value to an integer gives exactly
`x / 3`, provided `x / 3 < 2^23` (so the rounding error, at most half a
last-place unit, cannot cross an integer boundary). -/
theorem div3_round_trunc (x c : Nat) (hx : 1 ≤ x) (hb : x < 25165824)
    (hc1 : 26 ≤ c) (hc2 : c ≤ 27) :
    nlog2 (x * 2 ^ c / 3) + 1 - 24 < c ∧
    rneDiv (x * 2 ^ c) (3 * 2 ^ (nlog2 (x * 2 ^ c / 3) + 1 - 24)) /
      2 ^ (c - (nlog2 (x * 2 ^ c / 3) + 1 - 24)) = x / 3 := by
  set T := x * 2 ^ c with hT
  set q := T / 3 with hq
  have h2c : 2 ^ 26 ≤ 2 ^ c := Nat.pow_le_pow_right (by norm_num) hc1
  have hTlow : 2 ^ 26 ≤ T := le_trans h2c (Nat.le_mul_of_pos_left _ hx)
  have hqlow : 2 ^ 24 ≤ q := (Nat.le_div_iff_mul_le (by norm_num)).2 (by omega)
  have hq0 : q ≠ 0 := by omega
  have hqhigh : q < 2 ^ (c + 23) := by
    rw [hq]
    rw [Nat.div_lt_iff_lt_mul (by norm_num)]
    calc T = x * 2 ^ c := hT
      _ < 25165824 * 2 ^ c := (Nat.mul_lt_mul_right (pow_pos (by norm_num) c)).2 hb
      _ = 2 ^ (c + 23) * 3 := by rw [pow_add]; ring
  set L := nlog2 q with hL
  have hLlow : 24 ≤ L := (le_nlog2_iff hq0).2 hqlow
  have hLhigh : L ≤ c + 22 := by
    have := (nlog2_le_iff hq0).2 hqhigh
    omega
  set drop := L + 1 - 24 with hdrop
  have hdrop1 : 1 ≤ drop := by omega
  have hdropc : drop + 1 ≤ c := by omega
  refine ⟨by omega, ?_⟩
  set D := (2 : Nat) ^ drop with hD
  set S := (2 : Nat) ^ (c - drop) with hS
  have hD0 : 0 < D := pow_pos (by norm_num) drop
  have hDS : D * S = 2 ^ c := by
    rw [hD, hS, ← pow_add]
    congr 1
    omega
  have hS2 : 2 ≤ S := by
    rw [hS]
    calc (2 : Nat) = 2 ^ 1 := (pow_one 2).symm
      _ ≤ 2 ^ (c - drop) := Nat.pow_le_pow_right (by norm_num) (by omega)
  set m := rneDiv T (3 * D) with hm
  obtain ⟨hb1, hb2⟩ := rneDiv_bounds T (3 * D) (by positivity)
  set n := x / 3 with hn
  set rem := x % 3 with hrem
  have hxeq : x = 3 * n + rem := by omega
  have hremlt : rem < 3 := by omega
  have e1 : 2 * T = 6 * (D * (n * S)) + 2 * (D * (rem * S)) := by
    calc 2 * T = 2 * ((3 * n + rem) * (D * S)) := by rw [hDS, hT, ← hxeq]
      _ = 6 * (D * (n * S)) + 2 * (D * (rem * S)) := by ring
  have hlow : n * S ≤ m := by
    by_contra hcon
    push_neg at hcon
    have hstep : 6 * (D * m) + 6 * D ≤ 6 * (D * (n * S)) := by
      have hmle := Nat.mul_le_mul_left (6 * D) (show m + 1 ≤ n * S from hcon)
      calc 6 * (D * m) + 6 * D = 6 * D * (m + 1) := by ring
        _ ≤ 6 * D * (n * S) := hmle
        _ = 6 * (D * (n * S)) := by ring
    have hcomb : 6 * (D * (n * S)) + 2 * (D * (rem * S)) ≤ 6 * (D * m) + 3 * D := by
      calc 6 * (D * (n * S)) + 2 * (D * (rem * S)) = 2 * T := e1.symm
        _ ≤ 2 * (3 * D * m) + 3 * D := hb1
        _ = 6 * (D * m) + 3 * D := by ring
    omega
  have hupp : m < (n + 1) * S := by
    by_contra hcon
    push_neg at hcon
    have hstep : 6 * (D * (n * S)) + 6 * (D * S) ≤ 6 * (D * m) := by
      have hmle := Nat.mul_le_mul_left (6 * D) hcon
      calc 6 * (D * (n * S)) + 6 * (D * S) = 6 * D * ((n + 1) * S) := by ring
        _ ≤ 6 * D * m := hmle
        _ = 6 * (D * m) := by ring
    have hcomb : 6 * (D * m) ≤ 6 * (D * (n * S)) + 2 * (D * (rem * S)) + 3 * D := by
      calc 6 * (D * m) = 2 * (3 * D * m) := by ring
        _ ≤ 2 * T + 3 * D := hb2
        _ = 6 * (D * (n * S)) + 2 * (D * (rem * S)) + 3 * D := by rw [e1]
    have hremS : 2 * (D * (rem * S)) ≤ 4 * (D * S) := by
      have h1 : rem * S ≤ 2 * S := Nat.mul_le_mul_right S (by omega)
      calc 2 * (D * (rem * S)) = 2 * D * (rem * S) := by ring
        _ ≤ 2 * D * (2 * S) := Nat.mul_le_mul_left _ h1
        _ = 4 * (D * S) := by ring
    have hDS2 : 2 * D ≤ D * S := by
      calc 2 * D = D * 2 := by ring
        _ ≤ D * S := Nat.mul_le_mul_left D hS2
    omega
  exact Nat.div_eq_of_lt_le hlow hupp

/-- Helper: dividing a 24-bit-exact multiple of 3/4 by 4.0 and truncating
gives the floor formula: the height branch of `shape4x3`. -/
theorem shape4x3_hcalc (d : Nat) (hd : 3 * d < 16777216) :
    f32toU32 (f32divPow2 (f32mul (f32ofNat d) (f32ofNat 3)) 2) = 3 * d / 4 := by
  have hd24 : d < 16777216 := by omega
  have e1 : f32ofNat d = ⟨d, 0⟩ := by
    unfold f32ofNat f32norm
    rw [if_pos hd24]
  have e3 : f32ofNat 3 = ⟨3, 0⟩ := rfl
  rw [e1, e3, f32mul_small d 3 (by omega)]
  simp only [f32divPow2, f32toU32]
  rw [if_neg (by norm_num)]
  have ht : ((-(0 - (2 : Nat) : Int))).toNat = 2 := by decide
  rw [ht]
  rw [Nat.min_eq_left (by unfold U32LIM; omega)]
  omega

/-- Helper: the width branch of `shape4x3` as performed by the `f32`
pipeline: multiply by 4.0 (rounding the product), divide by 3.0 with one
correct rounding, truncate; equals `4 * s / 3` when `4 * s / 3 < 2^23`. -/
theorem shape4x3_wcalc (s : Nat) (hs : 1 ≤ s) (hb : 4 * s < 25165824) :
    f32toU32 (f32divN (f32mul (f32ofNat s) (f32ofNat 4)) 3) = 4 * s / 3 := by
  have hs24 : s < 16777216 := by omega
  have e1 : f32ofNat s = ⟨s, 0⟩ := by
    unfold f32ofNat f32norm
    rw [if_pos hs24]
  have e4 : f32ofNat 4 = ⟨4, 0⟩ := rfl
  rw [e1, e4]
  by_cases hsm : s * 4 < 16777216
  · rw [f32mul_small s 4 hsm]
    have hx4 : s * 4 = 4 * s := by ring
    obtain ⟨hdropc, heq⟩ := div3_round_trunc (4 * s) 27 (by omega) hb
      (by norm_num) (by norm_num)
    simp only [f32divN]
    rw [if_neg (by omega)]
    have hk : 26 + nlog2 3 = 27 := rfl
    simp only [hk, hx4]
    simp only [f32toU32]
    rw [if_neg (by omega)]
    have ht : (-((0 : Int) - (27 : Nat) +
        ((nlog2 (4 * s * 2 ^ 27 / 3) + 1 - 24 : Nat) : Int))).toNat =
        27 - (nlog2 (4 * s * 2 ^ 27 / 3) + 1 - 24) := by
      omega
    rw [ht, heq]
    exact Nat.min_eq_left (by unfold U32LIM; omega)
  · rw [f32mul_shift4 s (by omega) (by omega)]
    have hx4 : s * 2 * 2 ^ 27 = 4 * s * 2 ^ 26 := by ring
    obtain ⟨hdropc, heq⟩ := div3_round_trunc (4 * s) 26 (by omega) hb
      (by norm_num) (by norm_num)
    simp only [f32divN]
    rw [if_neg (by omega)]
    have hk : 26 + nlog2 3 = 27 := rfl
    simp only [hk, hx4]
    simp only [f32toU32]
    rw [if_neg (by omega)]
    have ht : (-((1 : Int) - (27 : Nat) +
        ((nlog2 (4 * s * 2 ^ 26 / 3) + 1 - 24 : Nat) : Int))).toNat =
        26 - (nlog2 (4 * s * 2 ^ 26 / 3) + 1 - 24) := by
      omega
    rw [ht, heq]
    exact Nat.min_eq_left (by unfold U32LIM; omega)

/-- Claim C3 counterexample: at input (11184813, 0, 0, 0) the code's
32-bit-float computation yields height 8388610, while the claimed
formula floor((tw - bh) * 3/4) yields 8388609: the float rounding
crosses the integer boundary, so the claim as stated is false. -/
theorem c3_shape4x3_counterexample :
    shape4x3 11184813 0 0 0 = .ok (some 11184813, some 8388610) ∧
    3 * (11184813 + 0 - 0) / 4 = 8388609 := by
  exact ⟨rfl, by norm_num⟩

/-- Claim C3 as amended: the branch structure and the floor formulas are
as claimed, provided the intermediate float values stay exactly
representable — `3 * (tw - bh) < 2^24` in the width-dominant branch and
`4 * (th + bh) < 3 * 2^23` in the height-dominant branch (outside those
ranges the `f32` rounding can differ from the floor by one, as the
counterexample shows); the equal case reports no change. -/
theorem c3_shape4x3_amended (w h bw bh : Nat)
    (h1 : w + bw < U32LIM) (h2 : h + bh < U32LIM) :
    (h + bh < w + bw → 3 * (w + bw - bh) < 16777216 →
      shape4x3 w h bw bh = .ok (some w, some (3 * (w + bw - bh) / 4))) ∧
    (w + bw < h + bh → 4 * (h + bh + bh) < 25165824 →
      shape4x3 w h bw bh = .ok (some (4 * (h + bh + bh) / 3), some h)) ∧
    (w + bw = h + bh → shape4x3 w h bw bh = .ok (none, none)) := by
  have hU : U32LIM = 4294967296 := rfl
  have a1 : addU32 w bw = .ok (w + bw) := addU32_ok h1
  have a2 : addU32 h bh = .ok (h + bh) := addU32_ok h2
  refine ⟨?_, ?_, ?_⟩
  · intro hlt hsm
    have a3 : subU32 (w + bw) bh = .ok (w + bw - bh) := subU32_ok (by omega)
    simp only [shape4x3, a1, a2, a3, exbind_ok, expure]
    rw [if_pos hlt, shape4x3_hcalc (w + bw - bh) hsm]
  · intro hlt hsm
    have a3 : addU32 (h + bh) bh = .ok (h + bh + bh) := addU32_ok (by omega)
    simp only [shape4x3, a1, a2, a3, exbind_ok, expure]
    rw [if_neg (by omega), if_pos hlt,
      shape4x3_wcalc (h + bh + bh) (by omega) hsm]
  · intro heq
    simp only [shape4x3, a1, a2, exbind_ok, expure]
    rw [if_neg (by omega), if_neg (by omega)]

/-- Witness for C3's amended theorem at the spec's example: (1000, 600,
0, 0) falls in the width-dominant branch and yields height 750. -/
theorem c3_shape4x3_amended_witness :
    shape4x3 1000 600 0 0 = .ok (some 1000, some 750) := by
  have hc := (c3_shape4x3_amended 1000 600 0 0 (by decide) (by decide)).1
    (by decide) (by decide)
  rw [hc]

/-- Witness for C10 at a concrete safe input. -/
theorem c10_placement_subtraction_safety_witness :
    ((move_win ⟨1920, 1080, 1920, 1080, 1, (0, 0, 0, 0), (0, 0, 0, 0)⟩ 7 800 600 10 20
        .Center).2.isOk = true ∧
      (shape_win ⟨1920, 1080, 1920, 1080, 1, (0, 0, 0, 0), (0, 0, 0, 0)⟩ 7 800 600 10 20
        .Halfw).2.isOk = true ∧
      (shape_win ⟨1920, 1080, 1920, 1080, 1, (0, 0, 0, 0), (0, 0, 0, 0)⟩ 7 800 600 10 20
        .Halfh).2.isOk = true ∧
      (shape_win ⟨1920, 1080, 1920, 1080, 1, (0, 0, 0, 0), (0, 0, 0, 0)⟩ 7 800 600 10 20
        .Small).2.isOk = true) ∧
    (move_win ⟨100, 100, 100, 100, 0, (0, 0, 0, 0), (0, 0, 0, 0)⟩ 0 200 0 0 0
        .Center).2 = .error (.arithPanic "u32 sub underflow") :=
  c10_placement_subtraction_safety
    ⟨1920, 1080, 1920, 1080, 1, (0, 0, 0, 0), (0, 0, 0, 0)⟩ 7 800 600 10 20 .Center
    (by decide) (by decide) (by decide) (by decide) (by decide) (by decide)

end Wmctl
